import Mathlib

/-!
# Verification of the route reveal animation engine (`src/components/MapComponent.vue`)

Shallow embedding of the animation core of the `routing_vis` repository:

* the Geometry Flattener (`animateRoute`, lines 472–490),
* the Schedule Planner (`startRouteAnimations`, lines 388–391 and 460–463),
* the Route Animator per-frame tick (`animateRoute`'s inner `animate`, lines 500–572),
* the Animation Supervisor registry (`animationControllers`, `stopAllAnimations`,
  `setAnimationSpeed`, lines 574–624).

Coordinates are modelled as pairs of rationals, wall-clock timestamps and
durations as rationals (the source uses JS floats; all the properties below
concern exact ratios such as `elapsed / routeDuration`, for which ℚ is the
faithful idealisation), and the side effects of each source function are
reified as explicit action lists or result records.
-/

/-- A GeoJSON coordinate pair `[lng, lat]`. -/
abbrev Coord := ℚ × ℚ

/-- The geometry of a GeoJSON feature, as the source distinguishes them by
`feature.geometry.type`.  `geometryCollection` stands for the GeoJSON kinds
that carry no `coordinates` member at all (so `!feature.geometry.coordinates`
is true for them). -/
inductive Geometry where
  | lineString (coords : List Coord)
  | multiLineString (segs : List (List Coord))
  | polygon (rings : List (List Coord))
  | point (c : Coord)
  | geometryCollection
deriving DecidableEq

/-- A route feature as the animation core sees it: possibly-missing geometry.
(The property map is never consulted by the control logic, only forwarded
verbatim into published features, so it is omitted.) -/
structure Feature where
  geometry : Option Geometry
deriving DecidableEq

/-- Whether `feature.geometry.coordinates` exists, is an array, and has
nonzero length (the guard at lines 406–409 of `startRouteAnimations`).
A `Point`'s `coordinates` is the two-element array `[lng, lat]`, so it passes
this length check and is only rejected later by the geometry-type check. -/
def Geometry.coordsNonempty : Geometry → Bool
  | .lineString cs => !cs.isEmpty
  | .multiLineString segs => !segs.isEmpty
  | .polygon rings => !rings.isEmpty
  | .point _ => true
  | .geometryCollection => false

/-- Outcome of the per-feature validation in `startRouteAnimations`
(lines 404–421): `skipInvalid` is the first `console.warn` (missing/empty
coordinates), `skipUnsupported` the second (geometry type neither
`LineString` nor `MultiLineString`). -/
inductive ValidationResult where
  | ok
  | skipInvalid
  | skipUnsupported
deriving DecidableEq

/-- The validation performed by `startRouteAnimations` on one feature, in the
source's order: missing geometry / missing, non-array or empty `coordinates`
first, then the geometry-type check. -/
def validateFeature (f : Feature) : ValidationResult :=
  match f.geometry with
  | none => .skipInvalid
  | some g =>
    if !g.coordsNonempty then .skipInvalid
    else
      match g with
      | .lineString _ => .ok
      | .multiLineString _ => .ok
      | _ => .skipUnsupported

/-- The id `route-${index}` (line 423). -/
def routeIdOf (i : ℕ) : String := "route-" ++ toString i

/-- The id `animated-${routeId}` (line 424). -/
def animatedRouteIdOf (i : ℕ) : String := "animated-" ++ routeIdOf i

/-- The observable side effects of `startRouteAnimations`, reified.
`warnSkip` is the validation `console.warn`; `scheduleTimeout i delay dur`
is `setTimeout(() => animateRoute(..., dur), delay)` for feature `i`
(note: the returned timeout id is dropped by the source — it is stored
nowhere); `registerController` is `animationControllers.value.set`. -/
inductive Effect where
  | warnSkip (idx : ℕ)
  | setLayerVisibility (layerId : String) (visible : Bool)
  | addSource (id : String) (initialCoords : List Coord)
  | addLayer (layerId sourceId : String)
  | scheduleTimeout (idx : ℕ) (delay : ℚ) (duration : ℚ)
  | registerController (key : String)
deriving DecidableEq

/-- The spacing `Math.max(minSpacing, (totalAnimationTime - routeDuration) / totalRoutes)`
(line 391), with the three hardcoded numbers of the source abstracted as
parameters.  (For `totalRoutes = 0` the source would produce `Infinity`;
no offset is ever computed from it because the feature loop is empty.) -/
def staggerDelay (minSpacing totalWindow dur : ℚ) (totalRoutes : ℕ) : ℚ :=
  max minSpacing ((totalWindow - dur) / totalRoutes)

/-- The offset `index * staggerDelay` (line 463): the start offset of the `i`-th route. -/
def startOffset (minSpacing totalWindow dur : ℚ) (totalRoutes : ℕ) (i : ℕ) : ℚ :=
  i * staggerDelay minSpacing totalWindow dur totalRoutes

/-- The constant `totalAnimationTime = 1500000` (line 389). -/
def totalAnimationTime : ℚ := 1500000

/-- The constant `routeDuration = 15000` (line 390).  Note that `startRouteAnimations`
hardcodes this value; it does **not** read the reactive
`animationDuration` ref. -/
def routeDuration : ℚ := 15000

/-- The hardcoded spacing floor `200` of line 391. -/
def minStagger : ℚ := 200

/-- The actions performed for one feature by the loop body of
`startRouteAnimations` (lines 404–468): on a validation failure exactly one
`console.warn` and nothing else; on success, add the animated source with an
initially **empty** `LineString`, add its styled line layer, then schedule
the delayed `animateRoute` activation.  The registry is not touched. -/
def processFeatureActions (dur stagger : ℚ) (i : ℕ) (f : Feature) : List Effect :=
  match validateFeature f with
  | .ok =>
    [Effect.addSource (animatedRouteIdOf i) [],
     Effect.addLayer (animatedRouteIdOf i ++ "-line") (animatedRouteIdOf i),
     Effect.scheduleTimeout i (i * stagger) dur]
  | _ => [Effect.warnSkip i]

/-- The loop `geojson.features.forEach((feature, index) => ...)` starting at index `i`. -/
def featureActionsFrom (dur stagger : ℚ) : ℕ → List Feature → List Effect
  | _, [] => []
  | i, f :: fs =>
    processFeatureActions dur stagger i f ++ featureActionsFrom dur stagger (i + 1) fs

/-- The full effect of `startRouteAnimations` (lines 382–469): hide the static
routes layer, then process every feature in order.  No cancellation handle is
ever registered here — the `setTimeout` ids are discarded. -/
def startRouteAnimationsActions (features : List Feature) : List Effect :=
  Effect.setLayerVisibility "routes-lines" false ::
    featureActionsFrom routeDuration
      (staggerDelay minStagger totalAnimationTime routeDuration features.length)
      0 features

/-- A value stored in the `animationControllers` map: either a stop closure
for a route (stored under key `${routeId}-stop`, line 580) or an array of
timeout ids (the kind of value `stopAllAnimations`' second branch expects;
the source never actually stores one). -/
inductive ControllerEntry where
  | stopFn (routeId : String)
  | timeoutIds (ids : List ℕ)
deriving DecidableEq

/-- The `animationControllers` map, as an insertion-ordered association list. -/
abbrev Controllers := List (String × ControllerEntry)

/-- JS `Map.prototype.set`: replace the value under an existing key, else append. -/
def mapSetC (cs : Controllers) (k : String) (v : ControllerEntry) : Controllers :=
  if cs.any (fun kv => kv.1 = k) then
    cs.map (fun kv => if kv.1 = k then (k, v) else kv)
  else cs ++ [(k, v)]

/-- JS `Map.prototype.delete`. -/
def mapDeleteC (cs : Controllers) (k : String) : Controllers :=
  cs.filter (fun kv => kv.1 ≠ k)

/-- The outcome of `stopAllAnimations` (lines 586–609): which stop closures
were invoked, which timeout ids were cleared, and the registry afterwards. -/
structure StopAllResult where
  invokedStops : List String
  clearedTimeouts : List ℕ
  controllers : Controllers
deriving DecidableEq

/-- The body of `stopAllAnimations`: for every entry, keys ending in `-stop` have their
function value invoked; other entries that are arrays have each timeout id
cleared; finally the map is cleared. -/
def stopAllAnimations (cs : Controllers) : StopAllResult :=
  { invokedStops :=
      cs.filterMap fun kv =>
        if kv.1.endsWith "-stop" then
          match kv.2 with
          | .stopFn rid => some rid
          | _ => none
        else none,
    clearedTimeouts :=
      (cs.filterMap fun kv =>
        if kv.1.endsWith "-stop" then none
        else
          match kv.2 with
          | .timeoutIds ids => some ids
          | _ => none).flatten,
    controllers := [] }

/-- The `reduce((acc, lineString) => acc.concat(lineString), [])` flattening and
geometry dispatch at the top of `animateRoute` (lines 472–485): a `LineString`'s
coordinates verbatim, a `MultiLineString`'s segments concatenated in order,
`none` (a logged error, no animator) for any other kind. -/
def animateRouteCoords : Geometry → Option (List Coord)
  | .lineString cs => some cs
  | .multiLineString segs => some (segs.foldl (fun acc ls => acc ++ ls) [])
  | _ => none

/-- The per-animator closure state of `animateRoute`: `startTime` (JS `null`
initially; `null` and `0` behave identically under the `!startTime` re-anchor
test, so the unset anchor is modelled as `0`) and the liveness flag
`isAnimationActive`. -/
structure AnimState where
  startTime : ℚ
  isActive : Bool
deriving DecidableEq

/-- The state just after `animateRoute` creates its closure (lines 495–498). -/
def initialAnimState : AnimState := { startTime := 0, isActive := true }

/-- The environment of one `animate(timestamp)` callback invocation: whether
`map.value` is still set, whether `getSource` finds the animated source, and
whether the `setData` publish succeeds (rather than throwing). -/
structure TickInput where
  mapExists : Bool
  sourceExists : Bool
  publishOk : Bool
  timestamp : ℚ
deriving DecidableEq

/-- Everything one `animate(timestamp)` invocation does: the closure state it
leaves behind, the coordinate list it published via `setData` (if any call
succeeded), whether a `console.warn` fired, whether `requestAnimationFrame`
was called again, and whether the completion branch ran its
`animationControllers.value.delete(routeId)`. -/
structure TickResult where
  state : AnimState
  published : Option (List Coord)
  warned : Bool
  rescheduled : Bool
  deregistered : Bool
deriving DecidableEq

/-- The body of `animate` (lines 500–572), translated branch by branch.
`coords` is the flattened coordinate list, `dur` the `routeDuration` argument.
The completion branch (lines 513–539) publishes the full list, logs, and runs
the registry delete; its `catch` only warns.  The running branch (lines
541–571) publishes `coords.slice(0, Math.max(1, currentStep + 1))`; its
`catch` warns, clears the liveness flag and stops rescheduling. -/
def animateTick (coords : List Coord) (dur : ℚ) (inp : TickInput)
    (st : AnimState) : TickResult :=
  if !inp.mapExists || !st.isActive then
    { state := st, published := none, warned := false,
      rescheduled := false, deregistered := false }
  else
    let anchor := if st.startTime = 0 then inp.timestamp else st.startTime
    let st1 : AnimState := { startTime := anchor, isActive := st.isActive }
    let elapsed := inp.timestamp - anchor
    let progress := min (elapsed / dur) 1
    let currentStep : ℤ := ⌊progress * (coords.length : ℚ)⌋
    if 1 ≤ progress ∨ (coords.length : ℤ) ≤ currentStep then
      if inp.sourceExists then
        if inp.publishOk then
          { state := st1, published := some coords, warned := false,
            rescheduled := false, deregistered := true }
        else
          { state := st1, published := none, warned := true,
            rescheduled := false, deregistered := true }
      else
        { state := st1, published := none, warned := false,
          rescheduled := false, deregistered := true }
    else
      let stepCount := max 1 (currentStep + 1)
      let animatedCoordinates := coords.take stepCount.toNat
      if inp.sourceExists then
        if inp.publishOk then
          { state := st1, published := some animatedCoordinates, warned := false,
            rescheduled := true, deregistered := false }
        else
          { state := { st1 with isActive := false }, published := none,
            warned := true, rescheduled := false, deregistered := false }
      else
        { state := st1, published := none, warned := false,
          rescheduled := true, deregistered := false }

/-- What firing a route's `setTimeout` does before the first tick
(lines 471–498, 574–584): flatten the geometry; on an unsupported kind or an
empty flattened list, log an error and create no animator; otherwise register
the stop closure under `${routeId}-stop` and request the first frame. -/
structure AnimateRouteStart where
  coords : Option (List Coord)
  controllers : Controllers
  firstTickRequested : Bool
deriving DecidableEq

/-- The run of `animateRoute` up to its first `requestAnimationFrame(animate)` call. -/
def animateRouteStartFn (g : Geometry) (i : ℕ) (cs : Controllers) :
    AnimateRouteStart :=
  match animateRouteCoords g with
  | none => { coords := none, controllers := cs, firstTickRequested := false }
  | some coordinates =>
    if coordinates.isEmpty then
      { coords := none, controllers := cs, firstTickRequested := false }
    else
      { coords := some coordinates,
        controllers :=
          mapSetC cs (routeIdOf i ++ "-stop") (.stopFn (routeIdOf i)),
        firstTickRequested := true }

/-- The outcome of `setAnimationSpeed` (lines 612–624). -/
structure SpeedChangeResult where
  newAnimationDuration : ℚ
  restarted : Bool
  restartActions : List Effect
deriving DecidableEq

/-- The body of `setAnimationSpeed(durationInSeconds)`: store `durationInSeconds * 1000`
in the `animationDuration` ref; if the controllers map is nonempty, stop all
animations and reload the routes layer, which re-runs `startRouteAnimations`
on the same feature collection.  (`startRouteAnimationsActions` takes no
duration argument because the source function reads none — `routeDuration`
is hardcoded there.) -/
def setAnimationSpeed (durationInSeconds : ℚ) (cs : Controllers)
    (features : List Feature) : SpeedChangeResult :=
  let newDuration := durationInSeconds * 1000
  if 0 < cs.length then
    { newAnimationDuration := newDuration, restarted := true,
      restartActions := startRouteAnimationsActions features }
  else
    { newAnimationDuration := newDuration, restarted := false,
      restartActions := [] }

/-- Derived sampler: the data published by a single tick of a running animator
whose anchor has already been set (to `1`), observed at elapsed time `t`
(i.e. at wall-clock timestamp `1 + t`), with the map and source present and
the publish succeeding. -/
def publishedAt (coords : List Coord) (dur t : ℚ) : Option (List Coord) :=
  (animateTick coords dur
    { mapExists := true, sourceExists := true, publishOk := true,
      timestamp := 1 + t }
    { startTime := 1, isActive := true }).published

/-- The number of coordinates published by such a tick (`0` when the tick
publishes nothing). -/
def revealCountAt (coords : List Coord) (dur t : ℚ) : ℕ :=
  ((publishedAt coords dur t).getD []).length

/-- Modelled from the spec's words only (for comparison with the code):
"revealCount = floor(progressFraction × totalCoordinates), lower-bounded at 1"
with "progressFraction = clamp(elapsed / durationMs, 0, 1)". -/
def specRevealCount (total : ℕ) (dur t : ℚ) : ℕ :=
  (max 1 ⌊max 0 (min (t / dur) 1) * (total : ℚ)⌋).toNat

/-! ## Concrete test fixtures -/

/-- A two-point route, the smallest route the animator accepts. -/
def twoCoords : List Coord := [((0 : ℚ), (0 : ℚ)), ((1 : ℚ), (1 : ℚ))]

/-- Ten collinear coordinates, matching the spec's end-to-end example L = 10. -/
def tenCoords : List Coord :=
  [((0 : ℚ), (0 : ℚ)), (1, 0), (2, 0), (3, 0), (4, 0),
   (5, 0), (6, 0), (7, 0), (8, 0), (9, 0)]

/-- A valid single-path route feature. -/
def exampleRouteFeature : Feature := { geometry := some (.lineString twoCoords) }

/-- A registry holding one animator's stop handle, as `animateRoute` leaves it. -/
def activeControllers : Controllers :=
  [(routeIdOf 0 ++ "-stop", ControllerEntry.stopFn (routeIdOf 0))]

/-! ## Helper lemmas about the animator tick -/

/-- A tick of a cancelled animator does nothing: no publish, no reschedule. -/
theorem animateTick_inactive (coords : List Coord) (dur : ℚ) (inp : TickInput)
    (st : AnimState) (h : st.isActive = false) :
    animateTick coords dur inp st =
      { state := st, published := none, warned := false,
        rescheduled := false, deregistered := false } := by
  unfold animateTick
  simp [h]

/-- Closed form of the data published by a running animator's tick at elapsed
time `t`: the full list once `t ≥ dur`, otherwise the first
`⌊t/dur · L⌋ + 1` coordinates. -/
theorem publishedAt_eq (coords : List Coord) (dur t : ℚ)
    (hc : coords ≠ []) (hd : 0 < dur) (ht : 0 ≤ t) :
    publishedAt coords dur t =
      if dur ≤ t then some coords
      else some (coords.take (⌊t / dur * (coords.length : ℚ)⌋ + 1).toNat) := by
  have hL : 0 < coords.length := List.length_pos.mpr hc
  have hLQ : (0 : ℚ) < (coords.length : ℚ) := by exact_mod_cast hL
  unfold publishedAt animateTick
  norm_num
  rcases le_or_lt dur t with h1 | h1
  · have h2 : 1 ≤ t / dur := (one_le_div hd).mpr h1
    rw [if_pos (Or.inl h2), if_pos h1]
  · have h2 : t / dur < 1 := (div_lt_one hd).mpr h1
    have hmin : t / dur ⊓ 1 = t / dur := min_eq_left h2.le
    have hflt : ⌊(t / dur ⊓ 1) * (coords.length : ℚ)⌋ < (coords.length : ℤ) := by
      rw [hmin, Int.floor_lt]
      push_cast
      exact mul_lt_of_lt_one_left hLQ h2
    have hcond : ¬(1 ≤ t / dur ∨
        (coords.length : ℤ) ≤ ⌊(t / dur ⊓ 1) * (coords.length : ℚ)⌋) := by
      push_neg
      exact ⟨h2, hflt⟩
    rw [if_neg hcond, if_neg (not_le.mpr h1)]
    have hf0 : 0 ≤ ⌊(t / dur ⊓ 1) * (coords.length : ℚ)⌋ := by
      rw [hmin]
      exact Int.floor_nonneg.mpr (mul_nonneg (div_nonneg ht hd.le) hLQ.le)
    have hsup : (1 : ℤ) ⊔ (⌊(t / dur ⊓ 1) * (coords.length : ℚ)⌋ + 1) =
        ⌊(t / dur ⊓ 1) * (coords.length : ℚ)⌋ + 1 :=
      sup_eq_right.mpr (by omega)
    rw [hsup, hmin]

/-- Closed form of the published count at elapsed time `t`. -/
theorem revealCountAt_eq (coords : List Coord) (dur t : ℚ)
    (hc : coords ≠ []) (hd : 0 < dur) (ht : 0 ≤ t) :
    revealCountAt coords dur t =
      if dur ≤ t then coords.length
      else (⌊t / dur * (coords.length : ℚ)⌋ + 1).toNat := by
  unfold revealCountAt
  rw [publishedAt_eq coords dur t hc hd ht]
  rcases le_or_lt dur t with h1 | h1
  · rw [if_pos h1, if_pos h1]
    rfl
  · rw [if_neg (not_le.mpr h1), if_neg (not_le.mpr h1)]
    simp only [Option.getD_some, List.length_take]
    have h2 : t / dur < 1 := (div_lt_one hd).mpr h1
    have hLQ : (0 : ℚ) < (coords.length : ℚ) := by
      exact_mod_cast List.length_pos.mpr hc
    have hflt : ⌊t / dur * (coords.length : ℚ)⌋ < (coords.length : ℤ) := by
      rw [Int.floor_lt]
      push_cast
      exact mul_lt_of_lt_one_left hLQ h2
    have : (⌊t / dur * (coords.length : ℚ)⌋ + 1).toNat ≤ coords.length := by omega
    exact min_eq_left this

/-- The published count is monotone in elapsed time. -/
theorem revealCountAt_mono (coords : List Coord) (dur t1 t2 : ℚ)
    (hc : coords ≠ []) (hd : 0 < dur) (h1 : 0 ≤ t1) (h12 : t1 ≤ t2) :
    revealCountAt coords dur t1 ≤ revealCountAt coords dur t2 := by
  have h2 : (0 : ℚ) ≤ t2 := le_trans h1 h12
  rw [revealCountAt_eq coords dur t1 hc hd h1,
    revealCountAt_eq coords dur t2 hc hd h2]
  have hLQ : (0 : ℚ) < (coords.length : ℚ) := by
    exact_mod_cast List.length_pos.mpr hc
  rcases le_or_lt dur t1 with ha | ha
  · rw [if_pos ha, if_pos (le_trans ha h12)]
  · rw [if_neg (not_le.mpr ha)]
    have hbound : (⌊t1 / dur * (coords.length : ℚ)⌋ + 1).toNat ≤ coords.length := by
      have hflt : ⌊t1 / dur * (coords.length : ℚ)⌋ < (coords.length : ℤ) := by
        rw [Int.floor_lt]
        push_cast
        exact mul_lt_of_lt_one_left hLQ ((div_lt_one hd).mpr ha)
      omega
    rcases le_or_lt dur t2 with hb | hb
    · rw [if_pos hb]
      exact hbound
    · rw [if_neg (not_le.mpr hb)]
      have hmono : ⌊t1 / dur * (coords.length : ℚ)⌋ ≤
          ⌊t2 / dur * (coords.length : ℚ)⌋ := by
        apply Int.floor_le_floor
        exact mul_le_mul_of_nonneg_right
          (div_le_div_of_nonneg_right h12 hd.le) hLQ.le
      omega

/-- The completion tick (elapsed ≥ duration, map and source present, publish
succeeding) publishes the full list, does not reschedule, and runs the
registry delete. -/
theorem animateTick_complete (coords : List Coord) (dur t : ℚ)
    (hd : 0 < dur) (hdt : dur ≤ t) :
    animateTick coords dur
      { mapExists := true, sourceExists := true, publishOk := true,
        timestamp := 1 + t }
      { startTime := 1, isActive := true } =
      { state := { startTime := 1, isActive := true }, published := some coords,
        warned := false, rescheduled := false, deregistered := true } := by
  unfold animateTick
  norm_num
  intro h
  exact absurd h (not_lt.mpr ((one_le_div hd).mpr hdt))

/-- The very first tick of a fresh animator anchors at its own timestamp, so
elapsed is 0 and it publishes exactly the first coordinate, then reschedules. -/
theorem animateTick_first (coords : List Coord) (dur ts : ℚ)
    (hc : coords ≠ []) (hd : 0 < dur) :
    animateTick coords dur
      { mapExists := true, sourceExists := true, publishOk := true,
        timestamp := ts } initialAnimState =
      { state := { startTime := ts, isActive := true },
        published := some (coords.take 1), warned := false,
        rescheduled := true, deregistered := false } := by
  have hL : 0 < coords.length := List.length_pos.mpr hc
  unfold animateTick initialAnimState
  norm_num [hd.ne']
  exact hc

/-! ## Helper lemmas about validation and the start loop -/

/-- Spec-side predicate (from the claim's words): the geometry kind is
single-path (`LineString`) or multi-path (`MultiLineString`). -/
def geomKindSupported : Option Geometry → Bool
  | some (.lineString _) => true
  | some (.multiLineString _) => true
  | _ => false

/-- Spec-side predicate (from the claim's words): the coordinate list is
empty or missing. -/
def coordsEmptyOrMissing : Option Geometry → Bool
  | none => true
  | some g => !g.coordsNonempty

/-- A feature matching the claim's skip predicate never validates as ok. -/
theorem validateFeature_ne_ok (f : Feature)
    (h : geomKindSupported f.geometry = false ∨
      coordsEmptyOrMissing f.geometry = true) :
    validateFeature f ≠ ValidationResult.ok := by
  unfold validateFeature
  match hg : f.geometry with
  | none => simp
  | some g =>
    rw [hg] at h
    cases g <;>
      simp_all [geomKindSupported, coordsEmptyOrMissing, Geometry.coordsNonempty] <;>
      split <;> simp

/-- A feature that fails validation contributes exactly one warning. -/
theorem processFeatureActions_invalid (dur d : ℚ) (i : ℕ) (f : Feature)
    (h : validateFeature f ≠ ValidationResult.ok) :
    processFeatureActions dur d i f = [Effect.warnSkip i] := by
  unfold processFeatureActions
  match hv : validateFeature f with
  | .ok => exact absurd hv h
  | .skipInvalid => rfl
  | .skipUnsupported => rfl

/-- The feature loop distributes over list append, the running index shifting
by the length of the first part. -/
theorem featureActionsFrom_append (dur d : ℚ) (j : ℕ) (fs1 fs2 : List Feature) :
    featureActionsFrom dur d j (fs1 ++ fs2) =
      featureActionsFrom dur d j fs1 ++
        featureActionsFrom dur d (j + fs1.length) fs2 := by
  induction fs1 generalizing j with
  | nil => simp [featureActionsFrom]
  | cons g gs ih =>
    show processFeatureActions dur d j g ++
        featureActionsFrom dur d (j + 1) (gs ++ fs2) =
      (processFeatureActions dur d j g ++ featureActionsFrom dur d (j + 1) gs) ++
        featureActionsFrom dur d (j + (gs.length + 1)) fs2
    rw [ih (j + 1), List.append_assoc,
      show j + 1 + gs.length = j + (gs.length + 1) from by omega]

/-- Folding list concatenation over an accumulator is flattening. -/
theorem foldl_append_eq_flatten (l : List (List Coord)) (acc : List Coord) :
    l.foldl (fun a b => a ++ b) acc = acc ++ l.flatten := by
  induction l generalizing acc with
  | nil => simp
  | cons x xs ih => simp [ih]

/-! ## Claims -/

/-- C4: the Schedule Planner assigns the i-th route (0-indexed, in input
order) the start offset `i * max(F, (W − D) / N)`; offset 0 is 0; offsets
are non-decreasing in i; when D ≥ W the per-route spacing collapses to the
floor F alone; and a start on an empty feature collection schedules no
activation at all (only the layer-visibility toggle happens). -/
theorem schedule_planner_offsets (minSpacing totalWindow dur : ℚ) (N : ℕ)
    (hF : 0 ≤ minSpacing) :
    (∀ i : ℕ, startOffset minSpacing totalWindow dur N i =
      (i : ℚ) * max minSpacing ((totalWindow - dur) / (N : ℚ))) ∧
    startOffset minSpacing totalWindow dur N 0 = 0 ∧
    (∀ i j : ℕ, i ≤ j →
      startOffset minSpacing totalWindow dur N i ≤
        startOffset minSpacing totalWindow dur N j) ∧
    (1 ≤ N → totalWindow ≤ dur →
      staggerDelay minSpacing totalWindow dur N = minSpacing) ∧
    startRouteAnimationsActions [] =
      [Effect.setLayerVisibility "routes-lines" false] := by
  refine ⟨fun i => rfl, by simp [startOffset], ?_, ?_, rfl⟩
  · intro i j hij
    have hs : 0 ≤ staggerDelay minSpacing totalWindow dur N :=
      le_trans hF (le_max_left _ _)
    unfold startOffset
    exact mul_le_mul_of_nonneg_right (by exact_mod_cast hij) hs
  · intro _ hDW
    unfold staggerDelay
    apply max_eq_left
    apply le_trans _ hF
    apply div_nonpos_of_nonpos_of_nonneg (sub_nonpos.mpr hDW)
    exact_mod_cast Nat.zero_le N

/-- C4 witness: the spec's end-to-end example N = 3, W = 3000, D = 1500,
F = 200 gives offset(0) = 0 (and, by the same theorem, delay 500 per step). -/
theorem schedule_planner_offsets_witness :
    (0 : ℚ) ≤ 200 ∧ startOffset 200 3000 1500 3 0 = 0 :=
  ⟨by norm_num, (schedule_planner_offsets 200 3000 1500 3 (by norm_num)).2.1⟩

/-- C5 counterexample: with L = 10 coordinates and D = 1500 ms, the tick at
elapsed t = 500 ms publishes 4 coordinates, while the claimed
`max(1, ⌊clamp(t/D,0,1)·L⌋)` is 3. -/
theorem animator_reveal_formula_cex :
    revealCountAt tenCoords 1500 500 = 4 ∧
    specRevealCount 10 1500 500 = 3 ∧
    revealCountAt tenCoords 1500 500 ≠ specRevealCount 10 1500 500 := by
  have hfloor : ⌊(500 / 1500 : ℚ) * (10 : ℚ)⌋ = 3 := by
    rw [Int.floor_eq_iff]
    norm_num
  have h1 : revealCountAt tenCoords 1500 500 = 4 := by
    rw [revealCountAt_eq tenCoords 1500 500 (by simp [tenCoords])
      (by norm_num) (by norm_num)]
    rw [if_neg (by norm_num)]
    have hlen : tenCoords.length = 10 := rfl
    rw [hlen]
    norm_num [hfloor]
    decide
  have h2 : specRevealCount 10 1500 500 = 3 := by
    unfold specRevealCount
    rw [min_eq_left (by norm_num), max_eq_right (by norm_num)]
    norm_num [hfloor]
    decide
  exact ⟨h1, h2, by rw [h1, h2]; norm_num⟩

/-- C5 corrected: the published count at elapsed t is the full length L once
t ≥ D, and `⌊(t/D)·L⌋ + 1` (one more than the claimed formula) before that;
the boundary samples do hold: elapsed = 0 publishes 1 coordinate and
elapsed = D publishes all L. -/
theorem animator_reveal_formula (coords : List Coord) (dur t : ℚ)
    (hc : coords ≠ []) (hd : 0 < dur) (ht : 0 ≤ t) :
    revealCountAt coords dur t =
      (if dur ≤ t then coords.length
       else (⌊t / dur * (coords.length : ℚ)⌋ + 1).toNat) ∧
    revealCountAt coords dur 0 = 1 ∧
    revealCountAt coords dur dur = coords.length := by
  refine ⟨revealCountAt_eq coords dur t hc hd ht, ?_, ?_⟩
  · rw [revealCountAt_eq coords dur 0 hc hd le_rfl,
      if_neg (not_le.mpr hd)]
    norm_num
  · rw [revealCountAt_eq coords dur dur hc hd hd.le, if_pos le_rfl]

/-- C5 witness: the corrected formula evaluated on the ten-point route. -/
theorem animator_reveal_formula_witness :
    tenCoords ≠ [] ∧ (0 : ℚ) < 1500 ∧ (0 : ℚ) ≤ 500 ∧
    revealCountAt tenCoords 1500 0 = 1 :=
  ⟨by simp [tenCoords], by norm_num, by norm_num,
    (animator_reveal_formula tenCoords 1500 500 (by simp [tenCoords])
      (by norm_num) (by norm_num)).2.1⟩

/-- C6: within one route the published prefix length is monotonically
non-decreasing in elapsed time across ticks, and a cancelled animator's tick
publishes nothing and does not reschedule — the layer is frozen at its last
published state, never shrunk. -/
theorem animator_monotone_growth (coords : List Coord) (dur t1 t2 : ℚ)
    (hc : coords ≠ []) (hd : 0 < dur) (h1 : 0 ≤ t1) (h12 : t1 ≤ t2) :
    revealCountAt coords dur t1 ≤ revealCountAt coords dur t2 ∧
    ∀ (inp : TickInput) (s : ℚ),
      (animateTick coords dur inp { startTime := s, isActive := false }).published
          = none ∧
      (animateTick coords dur inp { startTime := s, isActive := false }).rescheduled
          = false := by
  refine ⟨revealCountAt_mono coords dur t1 t2 hc hd h1 h12, fun inp s => ?_⟩
  rw [animateTick_inactive coords dur inp _ rfl]
  exact ⟨rfl, rfl⟩

/-- C6 witness: monotonicity sampled on the ten-point route at t = 500 ≤ 1000. -/
theorem animator_monotone_growth_witness :
    tenCoords ≠ [] ∧ (0 : ℚ) < 1500 ∧ (0 : ℚ) ≤ 500 ∧ (500 : ℚ) ≤ 1000 ∧
    revealCountAt tenCoords 1500 500 ≤ revealCountAt tenCoords 1500 1000 :=
  ⟨by simp [tenCoords], by norm_num, by norm_num, by norm_num,
    (animator_monotone_growth tenCoords 1500 500 1000 (by simp [tenCoords])
      (by norm_num) (by norm_num) (by norm_num)).1⟩

/-- C9: the Geometry Flattener passes a LineString's coordinate list through
verbatim and concatenates a MultiLineString's segments in their given order;
in particular segments [[a,b],[c,d]] flatten to [a,b,c,d].  (The flattener is
a pure function of the geometry; the input feature is not mutated.) -/
theorem flattener_concat :
    (∀ cs : List Coord,
      animateRouteCoords (Geometry.lineString cs) = some cs) ∧
    (∀ segs : List (List Coord),
      animateRouteCoords (Geometry.multiLineString segs) = some segs.flatten) ∧
    (∀ a b c d : Coord,
      animateRouteCoords (Geometry.multiLineString [[a, b], [c, d]]) =
        some [a, b, c, d]) := by
  refine ⟨fun cs => rfl, fun segs => ?_, fun a b c d => rfl⟩
  show some (segs.foldl (fun acc ls => acc ++ ls) []) = some segs.flatten
  rw [foldl_append_eq_flatten]
  simp

/-- C7 counterexample: on the completion tick (elapsed = D) a failing publish
is caught and logged, but the animator is NOT marked inactive — its liveness
flag stays true — contradicting the claim that every failing publish marks
the animator inactive. -/
theorem animator_publish_failure_cex :
    (animateTick twoCoords 15000
      { mapExists := true, sourceExists := true, publishOk := false,
        timestamp := 1 + 15000 }
      { startTime := 1, isActive := true }).warned = true ∧
    (animateTick twoCoords 15000
      { mapExists := true, sourceExists := true, publishOk := false,
        timestamp := 1 + 15000 }
      { startTime := 1, isActive := true }).state.isActive = true := by
  unfold animateTick
  norm_num

/-- C7 corrected: when the publish throws, the tick catches it — it never
publishes, never reschedules, and always logs a warning; on a non-completion
tick it additionally clears the liveness flag, while on the completion tick
(the one that runs the deregistration) the flag is left untouched, the
animator terminating by not rescheduling instead. -/
theorem animator_publish_failure (coords : List Coord) (dur : ℚ)
    (inp : TickInput) (st : AnimState) (hmap : inp.mapExists = true)
    (hact : st.isActive = true) (hsrc : inp.sourceExists = true)
    (hpub : inp.publishOk = false) :
    (animateTick coords dur inp st).published = none ∧
    (animateTick coords dur inp st).rescheduled = false ∧
    (animateTick coords dur inp st).warned = true ∧
    ((animateTick coords dur inp st).deregistered = false →
      (animateTick coords dur inp st).state.isActive = false) := by
  unfold animateTick
  rw [hmap, hact, hsrc, hpub]
  simp only [Bool.not_true, Bool.or_self, Bool.false_or, Bool.false_eq_true,
    if_false, if_true, Bool.not_false, Bool.true_or, Bool.or_true]
  split_ifs <;> exact ⟨rfl, rfl, rfl, by simp⟩

/-- C7 witness: a failing publish on a running (non-final) tick. -/
theorem animator_publish_failure_witness :
    ({ mapExists := true, sourceExists := true, publishOk := false,
        timestamp := 1 } : TickInput).mapExists = true ∧
    (animateTick twoCoords 15000
      { mapExists := true, sourceExists := true, publishOk := false,
        timestamp := 1 }
      { startTime := 1, isActive := true }).published = none :=
  ⟨rfl, (animator_publish_failure twoCoords 15000
    { mapExists := true, sourceExists := true, publishOk := false,
      timestamp := 1 }
    { startTime := 1, isActive := true } rfl rfl rfl rfl).1⟩

/-- C8: a feature whose geometry kind is neither LineString nor
MultiLineString, or whose coordinate list is empty or missing, contributes
exactly one validation warning and nothing else — no source, no layer, no
scheduled animator — and every feature before and after it in the collection
is still processed at its own index. -/
theorem invalid_feature_skipped (f : Feature) (i : ℕ) (dur d : ℚ)
    (h : geomKindSupported f.geometry = false ∨
      coordsEmptyOrMissing f.geometry = true) :
    processFeatureActions dur d i f = [Effect.warnSkip i] ∧
    ∀ (j : ℕ) (fs1 fs2 : List Feature),
      featureActionsFrom dur d j (fs1 ++ f :: fs2) =
        featureActionsFrom dur d j fs1 ++
          Effect.warnSkip (j + fs1.length) ::
            featureActionsFrom dur d (j + fs1.length + 1) fs2 := by
  have hno : validateFeature f ≠ ValidationResult.ok := validateFeature_ne_ok f h
  refine ⟨processFeatureActions_invalid dur d i f hno, fun j fs1 fs2 => ?_⟩
  rw [featureActionsFrom_append]
  show featureActionsFrom dur d j fs1 ++
      (processFeatureActions dur d (j + fs1.length) f ++
        featureActionsFrom dur d (j + fs1.length + 1) fs2) = _
  rw [processFeatureActions_invalid dur d (j + fs1.length) f hno]
  rfl

/-- C8 witness: a Polygon feature at index 0 is skipped with one warning. -/
theorem invalid_feature_skipped_witness :
    geomKindSupported (Feature.mk (some (.polygon [twoCoords]))).geometry
        = false ∧
    processFeatureActions 15000 200 0 (Feature.mk (some (.polygon [twoCoords])))
        = [Effect.warnSkip 0] :=
  ⟨rfl, (invalid_feature_skipped (Feature.mk (some (.polygon [twoCoords])))
    0 15000 200 (Or.inl rfl)).1⟩

/-- C10: a feature that passes validation gets — before its stagger delay is
even scheduled — its dedicated animated source created with an initial
empty-coordinate LineString, then its styled line layer, and only then the
delayed activation; so during the Pending phase the animated layer exists and
renders no geometry. -/
theorem valid_feature_setup (f : Feature) (i : ℕ) (dur d : ℚ)
    (hok : validateFeature f = ValidationResult.ok) :
    processFeatureActions dur d i f =
      [Effect.addSource (animatedRouteIdOf i) [],
       Effect.addLayer (animatedRouteIdOf i ++ "-line") (animatedRouteIdOf i),
       Effect.scheduleTimeout i (i * d) dur] := by
  unfold processFeatureActions
  rw [hok]

/-- C10 witness: the example LineString feature at index 0. -/
theorem valid_feature_setup_witness :
    validateFeature exampleRouteFeature = ValidationResult.ok ∧
    processFeatureActions 15000 200 0 exampleRouteFeature =
      [Effect.addSource (animatedRouteIdOf 0) [],
       Effect.addLayer (animatedRouteIdOf 0 ++ "-line") (animatedRouteIdOf 0),
       Effect.scheduleTimeout 0 (0 * 200) 15000] :=
  ⟨rfl, valid_feature_setup exampleRouteFeature 0 15000 200 rfl⟩

/-- C1 (code-bug evaluation): `startRouteAnimations` registers no cancellation
handle — the `setTimeout` id is discarded — so a stop-all issued during the
stagger delay iterates an empty registry, cancels nothing and clears no
timeout; the pending timer still fires afterwards, `animateRoute` creates a
fresh active animator, and its first tick publishes the route's first
coordinate.  The claimed guarantee of zero publishes fails. -/
theorem pending_cancel_bug :
    (startRouteAnimationsActions [exampleRouteFeature]).filter
      (fun a => match a with
        | .registerController _ => true
        | _ => false) = [] ∧
    ((startRouteAnimationsActions [exampleRouteFeature]).filter
      (fun a => match a with
        | .scheduleTimeout _ _ _ => true
        | _ => false)).length = 1 ∧
    stopAllAnimations [] =
      { invokedStops := [], clearedTimeouts := [], controllers := [] } ∧
    (animateRouteStartFn (.lineString twoCoords) 0
      (stopAllAnimations []).controllers).firstTickRequested = true ∧
    (animateTick twoCoords 15000
      { mapExists := true, sourceExists := true, publishOk := true,
        timestamp := 1000 } initialAnimState).published =
      some [((0 : ℚ), (0 : ℚ))] := by
  refine ⟨rfl, rfl, rfl, rfl, ?_⟩
  rw [animateTick_first twoCoords 15000 1000 (by simp [twoCoords]) (by norm_num)]
  rfl

/-- C2 (code-bug evaluation): calling `setAnimationSpeed(5)` with an active
animator stores 5000 ms and restarts the campaign, but the restarted campaign
schedules its one route with the hardcoded 15000 ms duration — the stored
duration is read by no start. -/
theorem speed_change_bug :
    (setAnimationSpeed 5 activeControllers [exampleRouteFeature]).restarted
        = true ∧
    (setAnimationSpeed 5 activeControllers
        [exampleRouteFeature]).newAnimationDuration = 5000 ∧
    ((setAnimationSpeed 5 activeControllers
        [exampleRouteFeature]).restartActions.filter
      (fun a => match a with
        | .scheduleTimeout _ _ _ => true
        | _ => false)).length = 1 ∧
    ((setAnimationSpeed 5 activeControllers
        [exampleRouteFeature]).restartActions.filter
      (fun a => match a with
        | .scheduleTimeout _ _ d => decide (d = 15000)
        | _ => false)).length = 1 ∧
    (5000 : ℚ) ≠ 15000 := by
  refine ⟨rfl, by norm_num [setAnimationSpeed, activeControllers], rfl, ?_, by norm_num⟩
  show ((startRouteAnimationsActions [exampleRouteFeature]).filter _).length = 1
  rfl

/-- C3 (code-bug evaluation): the completion tick publishes the full
coordinate list, stops rescheduling, and runs the registry delete — but it
deletes key `route-0` while the handle sits under `route-0-stop`, so after
natural completion the registry still contains the route's entry. -/
theorem completion_deregister_bug :
    (animateTick twoCoords 15000
      { mapExists := true, sourceExists := true, publishOk := true,
        timestamp := 1 + 15000 }
      { startTime := 1, isActive := true }).published = some twoCoords ∧
    (animateTick twoCoords 15000
      { mapExists := true, sourceExists := true, publishOk := true,
        timestamp := 1 + 15000 }
      { startTime := 1, isActive := true }).rescheduled = false ∧
    (animateTick twoCoords 15000
      { mapExists := true, sourceExists := true, publishOk := true,
        timestamp := 1 + 15000 }
      { startTime := 1, isActive := true }).deregistered = true ∧
    mapDeleteC (animateRouteStartFn (.lineString twoCoords) 0 []).controllers
        (routeIdOf 0) =
      [(routeIdOf 0 ++ "-stop", ControllerEntry.stopFn (routeIdOf 0))] := by
  rw [animateTick_complete twoCoords 15000 15000 (by norm_num) le_rfl]
  exact ⟨rfl, rfl, rfl, rfl⟩
